import Mathlib

/-!
Verification of the spam-classification repository
(`Priyanshu6yadav/Spam-classifications`) against its natural-language
specification.

The development shallowly embeds the parts of the Python sources that the
specification talks about:

* `src/src/app.py` and `src/app.py` — the Flask `/predict` handler
  (input validation, response construction, the rate-limit decorator, the
  request-boundary exception handler);
* `src/src/train.py` and `src/notebooks/train_optimized.py` — the label
  mapping of the dataset loader, the train/test split call, the derived
  confusion-matrix rates and the artifact saving code;
* `src/notebooks/model_evaluation.py` — the guarded sensitivity/specificity
  computations and the threshold sweep.

Machine reals are modelled with `ℚ` (the handler arithmetic is exact on the
values involved), fallible code with `Except`/`Option`, and the file system
observable during an artifact write as the list of contents the artifact path
assumes over time.
-/

/-- A structured JSON response of the serving layer, as built by the dict
literals in `predict` (`src/src/app.py`, `src/app.py`).  Error responses carry
no confidence keys, hence the `Option` fields. -/
structure ApiResponse where
  error : Bool
  status : String
  message : String
  confidence : Option ℚ
  spam_confidence : Option ℚ
  ham_confidence : Option ℚ
deriving Repr, DecidableEq

/-- Python `str.strip` whitespace set (space, tab, newline, carriage return,
vertical tab, form feed) as used by `data.get('message', '').strip()`. -/
def isPyWhitespace (c : Char) : Bool :=
  c == ' ' || c == '\t' || c == '\n' || c == '\r' || c == '\x0b' || c == '\x0c'

/-- Python `str.strip`: drop the whitespace characters at both ends. -/
def pyStrip (s : String) : String :=
  String.mk (((s.data.dropWhile isPyWhitespace).reverse.dropWhile isPyWhitespace).reverse)

/-- Response returned for an empty (post-strip) message,
`src/src/app.py:121-127` / `src/app.py:106-112`. -/
def emptyMessageResponse : ApiResponse × Nat :=
  (⟨true, "error", "Please enter a message to classify.", none, none, none⟩, 400)

/-- Response returned for an over-long message,
`src/src/app.py:130-136` / `src/app.py:115-121`. -/
def tooLongResponse : ApiResponse × Nat :=
  (⟨true, "error", "Message is too long. Please limit to 5000 characters.", none, none, none⟩, 400)

/-- The input-validation block shared verbatim by both `predict` handlers:
strip the raw message, reject the empty string with a 400 response, reject
messages longer than 5000 characters with a 400 response, otherwise hand the
stripped message to the prediction code. -/
def validateMessage (raw : String) : Except (ApiResponse × Nat) String :=
  let message := pyStrip raw
  if message = "" then Except.error emptyMessageResponse
  else if 5000 < message.length then Except.error tooLongResponse
  else Except.ok message

/-- The names bound in the local scope of `predict` in `src/src/app.py` by the
time the `logger.info` call at line 153 runs (assignments at lines 117, 118,
146, 147, 149, 150, 151, plus the module-level `model`).  The f-string at line
153 interpolates `confidence_score`, which is none of them — `confidence_score`
is assigned nowhere in `src/src/app.py`. -/
def optimizedBoundNames : List String :=
  ["data", "message", "confidence", "prediction", "is_spam",
   "ham_confidence", "spam_confidence", "model"]

/-- Python name resolution for the logging f-string: interpolating a name that
is not bound raises `NameError`. -/
def resolveName (env : List String) (n : String) : Except String Unit :=
  if env.contains n then Except.ok () else Except.error ("NameError: name " ++ n ++ " is not defined")

/-- Python `round(x, 1)`: round to one decimal digit, halves to even.
`roundHalfEven q` is `⌊q + 1/2⌋` except when `q + 1/2` lands exactly on an odd
integer, in which case the even neighbour below is taken. -/
def roundHalfEven (q : ℚ) : ℤ :=
  if q + 1/2 = (⌊q + 1/2⌋ : ℚ) ∧ ¬ Even ⌊q + 1/2⌋ then ⌊q + 1/2⌋ - 1 else ⌊q + 1/2⌋

/-- Python `round(x, 1)` on an exact rational. -/
def pyRound1 (q : ℚ) : ℚ := (roundHalfEven (10 * q) : ℚ) / 10

/-- The 200 response built at `src/src/app.py:155-162` from the two class
probabilities `confidence[0] = p0` (ham) and `confidence[1] = p1` (spam):
`prediction = 1 if confidence[1] > confidence[0] else 0`, the confidence fields
are the probabilities scaled to percent and rounded to one decimal. -/
def successResponse (p0 p1 : ℚ) : ApiResponse :=
  let prediction : Nat := if p0 < p1 then 1 else 0
  let is_spam : Bool := prediction == 1
  let ham_confidence := p0 * 100
  let spam_confidence := p1 * 100
  { error := false
    status := if is_spam then "spam" else "legitimate"
    message := if is_spam then "This message is 🚨 SPAM" else "This message is 💬 LEGITIMATE"
    confidence := some (pyRound1 (max ham_confidence spam_confidence))
    spam_confidence := some (pyRound1 spam_confidence)
    ham_confidence := some (pyRound1 ham_confidence) }

/-- The `try` body of `predict` in `src/src/app.py` (lines 115-162), with the
model abstracted as its `predict_proba` function `proba : message ↦ (p0, p1)`.
After validation the handler computes the response fields and then executes
`logger.info(f"Prediction: ..., Confidence: {confidence_score:.2f}%")`
(line 153); interpolation of the unbound name `confidence_score` raises, which
the embedding surfaces as an `Except.error`. -/
def predictOptimizedBody (proba : String → ℚ × ℚ) (raw : String) :
    Except String (ApiResponse × Nat) :=
  match validateMessage raw with
  | Except.error resp => Except.ok resp
  | Except.ok message =>
    let p := proba message
    match resolveName optimizedBoundNames "confidence_score" with
    | Except.error e => Except.error e
    | Except.ok _ => Except.ok (successResponse p.1 p.2, 200)

/-- The generic 500 response of `src/src/app.py:166-170`: a fixed message that
does not mention the exception. -/
def exceptHandlerOptimized (_e : String) : ApiResponse × Nat :=
  (⟨true, "error", "An unexpected server error occurred. The issue has been logged.", none, none, none⟩, 500)

/-- The 500 response of `src/app.py:164-168`: its `message` field is the
f-string `f'An unexpected error occurred: {str(e)}'`, so the exception text is
embedded in the payload sent to the caller. -/
def exceptHandlerRoot (e : String) : ApiResponse × Nat :=
  (⟨true, "error", "An unexpected error occurred: " ++ e, none, none, none⟩, 500)

/-- The `try`/`except Exception` wrapper around each handler body: a raised
exception is caught at the request boundary and converted into the handler's
500 response, so the request always produces a response value. -/
def catchBoundary (body : Except String (ApiResponse × Nat))
    (handler : String → ApiResponse × Nat) : ApiResponse × Nat :=
  match body with
  | Except.ok r => r
  | Except.error e => handler e

/-- The complete `/predict` handler of `src/src/app.py` (the version served by
`wsgi.py` through `create_app`). -/
def predictOptimized (proba : String → ℚ × ℚ) (raw : String) : ApiResponse × Nat :=
  catchBoundary (predictOptimizedBody proba raw) exceptHandlerOptimized

/-! ## Rate limiting (`src/src/app.py:26-106`) -/

/-- `RATE_LIMIT_REQUESTS = 15` (`src/src/app.py:28`). -/
def RATE_LIMIT_REQUESTS : Nat := 15

/-- `RATE_LIMIT_PERIOD = 60` seconds (`src/src/app.py:29`). -/
def RATE_LIMIT_PERIOD : ℚ := 60

/-- Lazy pruning step of `rate_limit_decorator` (`src/src/app.py:92-94`): keep
only the timestamps `ts` with `current_time - ts < RATE_LIMIT_PERIOD`. -/
def pruneTimestamps (now : ℚ) (ts : List ℚ) : List ℚ :=
  ts.filter (fun t => now - t < RATE_LIMIT_PERIOD)

/-- The 429 response of `src/src/app.py:98-102`. -/
def rateLimitedResponse : ApiResponse × Nat :=
  (⟨true, "error", "Too many requests. Please wait a minute and try again.", none, none, none⟩, 429)

/-- Outcome of the rate-limit check: either the request is rejected with the
429 response, or it is admitted and the wrapped handler runs. -/
inductive RateLimitOutcome where
  | rejected : ApiResponse × Nat → RateLimitOutcome
  | admitted : RateLimitOutcome
deriving Repr, DecidableEq

/-- One request through `rate_limit_decorator` (`src/src/app.py:84-105`) for a
single client: prune the client's timestamp list, reject with 429 if at least
`RATE_LIMIT_REQUESTS` timestamps remain in the window, otherwise append the
current time and admit.  Returns the outcome and the client's new stored
timestamp list. -/
def rateLimitStep (now : ℚ) (ts : List ℚ) : RateLimitOutcome × List ℚ :=
  let pruned := pruneTimestamps now ts
  if RATE_LIMIT_REQUESTS ≤ pruned.length then
    (RateLimitOutcome.rejected rateLimitedResponse, pruned)
  else
    (RateLimitOutcome.admitted, pruned ++ [now])

/-! ## Dataset loading (`src/src/train.py:35-37`,
`src/notebooks/train_optimized.py:26-29`) -/

/-- One raw CSV row: column `v1` is the label string, `v2` the message text. -/
structure RawRow where
  v1 : String
  v2 : String
deriving Repr, DecidableEq

/-- A loaded record.  `target` is `Option` because pandas
`Series.map({'ham': 0, 'spam': 1})` produces a missing value (NaN) for any key
not in the dictionary. -/
structure Record where
  target : Option Nat
  message : String
deriving Repr, DecidableEq

/-- `df['target'].map({'ham': 0, 'spam': 1})` applied to one label
(`src/src/train.py:37`): dictionary lookup, NaN (here `none`) when the label is
not a key. -/
def labelMap (l : String) : Option Nat :=
  if l = "ham" then some 0 else if l = "spam" then some 1 else none

/-- The loading phase of `src/src/train.py:35-37`: read the rows, rename the
columns, map the labels.  `Series.map` never raises on unmatched keys, so the
result is always `Except.ok`; the `Except` layer records that no error path
exists in this code. -/
def loadDataset (rows : List RawRow) : Except String (List Record) :=
  Except.ok (rows.map (fun r => { target := labelMap r.v1, message := r.v2 }))

/-! ## Train/test split (`src/src/train.py:47-50`,
`src/notebooks/model_evaluation.py:44-46`) -/

/-- A linear congruential pseudo-random step (glibc constants), standing in for
the library's seeded Mersenne generator: any fixed deterministic generator
exhibits the determinism the split relies on. -/
def lcg (s : Nat) : Nat := (1103515245 * s + 12345) % 2147483648

/-- Seeded shuffle, fuel-indexed: repeatedly pick the `seed % length`-th
element, emit it, and recurse with the stepped seed on the rest. -/
def seededShuffleGo {α : Type} : Nat → Nat → List α → List α
  | 0, _, l => l
  | _ + 1, _, [] => []
  | fuel + 1, s, a :: rest =>
    let l := a :: rest
    let r := s % l.length
    l.getD r a :: seededShuffleGo fuel (lcg s) (l.eraseIdx r)

/-- Seeded shuffle of a list: a pure function of (seed, list). -/
def seededShuffle {α : Type} (seed : Nat) (l : List α) : List α :=
  seededShuffleGo l.length seed l

/-- Split one class: shuffle it with the seed, take `⌈frac·n⌉` records as the
test side, the rest as the train side. -/
def splitClass {α : Type} (seed : Nat) (frac : ℚ) (l : List α) : List α × List α :=
  let sh := seededShuffle seed l
  let k := (⌈frac * l.length⌉).toNat
  (sh.drop k, sh.take k)

/-- A labelled record as fed to `train_test_split` (target, message). -/
abbrev LabelledRow := Nat × String

/-- `train_test_split(X, y, test_size=frac, random_state=randomState,
stratify=y)` (`src/src/train.py:47-50`).  The `ambient` argument is the global
random-generator state the library would consult when `random_state=None` is
passed; when a fixed `random_state` is given — the code passes 42 — the split
is seeded from it and the ambient state is ignored.  Stratification: each class
is split independently at the requested fraction and the parts are joined. -/
def trainTestSplit (ambient : Nat) (randomState : Option Nat) (frac : ℚ)
    (data : List LabelledRow) : List LabelledRow × List LabelledRow :=
  let seed := randomState.getD ambient
  let class0 := data.filter (fun r => r.1 == 0)
  let class1 := data.filter (fun r => r.1 != 0)
  let s0 := splitClass seed frac class0
  let s1 := splitClass (lcg seed) frac class1
  (s0.1 ++ s1.1, s0.2 ++ s1.2)

/-! ## Derived confusion-matrix rates -/

/-- `specificity = tn / (tn + fp) if (tn + fp) > 0 else 0`
(`src/notebooks/model_evaluation.py:86`). -/
def specificity (tn fp : Nat) : ℚ :=
  if 0 < tn + fp then (tn : ℚ) / ((tn : ℚ) + fp) else 0

/-- `sensitivity = tp / (tp + fn) if (tp + fn) > 0 else 0`
(`src/notebooks/model_evaluation.py:87`). -/
def sensitivity (tp fneg : Nat) : ℚ :=
  if 0 < tp + fneg then (tp : ℚ) / ((tp : ℚ) + fneg) else 0

/-- `fp / (fp + tn)` as printed at `src/notebooks/model_evaluation.py:92` — an
unguarded division.  `none` models the absence of the sentinel result when the
denominator is zero (Python ints raise `ZeroDivisionError`, NumPy scalars
produce NaN with a warning; neither is the value 0). -/
def fpRateEval (fp tn : Nat) : Option ℚ :=
  if fp + tn = 0 then none else some ((fp : ℚ) / ((fp : ℚ) + tn))

/-- `tp/(tp+fp)` at `src/notebooks/train_optimized.py:104` and `:135` —
unguarded. -/
def precisionV2 (tp fp : Nat) : Option ℚ :=
  if tp + fp = 0 then none else some ((tp : ℚ) / ((tp : ℚ) + fp))

/-- `tp/(tp+fn)` at `src/notebooks/train_optimized.py:105` and `:136` —
unguarded. -/
def recallV2 (tp fneg : Nat) : Option ℚ :=
  if tp + fneg = 0 then none else some ((tp : ℚ) / ((tp : ℚ) + fneg))

/-- `2*tp/(2*tp+fp+fn)` at `src/notebooks/train_optimized.py:106` and `:137` —
unguarded. -/
def f1V2 (tp fp fneg : Nat) : Option ℚ :=
  if 2 * tp + fp + fneg = 0 then none
  else some ((2 * tp : ℚ) / ((2 * tp : ℚ) + fp + fneg))

/-- `fp/(fp+tn)` at `src/notebooks/train_optimized.py:107` and `:138` —
unguarded. -/
def fpRateV2 (fp tn : Nat) : Option ℚ :=
  if fp + tn = 0 then none else some ((fp : ℚ) / ((fp : ℚ) + tn))

/-! ## Threshold sweep (`src/notebooks/model_evaluation.py:225-245`) -/

/-- The sample data of the sweep: each element pairs a predicted spam
probability `y_pred_proba[i, 1]` with the true label `y_test[i]`. -/
abbrev Scored := List (ℚ × Nat)

/-- Number of predicted positives at threshold `t`:
`y_pred_thresh = (y_pred_proba[:, 1] >= thresh)`. -/
def predPosAt (d : Scored) (t : ℚ) : Nat :=
  d.countP (fun x => decide (t ≤ x.1))

/-- Number of true positives at threshold `t`. -/
def tpAt (d : Scored) (t : ℚ) : Nat :=
  d.countP (fun x => decide (t ≤ x.1) && decide (x.2 = 1))

/-- Number of actual positives (spam labels) in the data. -/
def posCount (d : Scored) : Nat :=
  d.countP (fun x => decide (x.2 = 1))

/-- `precision_score(y_test, y_pred_thresh, zero_division=0)`
(`src/notebooks/model_evaluation.py:228`): tp over predicted positives, 0 when
nothing is predicted positive. -/
def precisionAt (d : Scored) (t : ℚ) : ℚ :=
  if predPosAt d t = 0 then 0 else (tpAt d t : ℚ) / (predPosAt d t : ℚ)

/-- `recall_score(y_test, y_pred_thresh, zero_division=0)`
(`src/notebooks/model_evaluation.py:229`): tp over actual positives, 0 when
there are no positives. -/
def recallAt (d : Scored) (t : ℚ) : ℚ :=
  if posCount d = 0 then 0 else (tpAt d t : ℚ) / (posCount d : ℚ)

/-- The explicit threshold grid `thresholds_to_test = [0.3, 0.5, 0.7, 0.9]`
(`src/notebooks/model_evaluation.py:225`). -/
def thresholdsToTest : List ℚ := [3/10, 5/10, 7/10, 9/10]

/-! ## Artifact writing (`src/src/train.py:126-163`,
`src/notebooks/train_optimized.py:117-152`) -/

/-- Observable contents of the artifact path during
`with open(model_path, 'wb') as f: pickle.dump(calib_pipe, f)`
(`src/src/train.py:133-134`; the metadata write at lines 161-162 and the
writes in `train_optimized.py` are the same shape).  `old` is the content
persisted at the path before the write (`none` if absent).  Opening with mode
`wb` truncates the file in place, then the serializer streams the bytes, so
the path successively holds `old`, the empty file, and every prefix of the
serialized data until the full artifact is in place.  A write that fails after
`i` chunks leaves the path in state `i + 1` of this trace. -/
def directWriteStates (old : Option (List Nat)) (data : List Nat) :
    List (Option (List Nat)) :=
  old :: (List.range (data.length + 1)).map (fun i => some (data.take i))

/-! ## Helper lemmas -/

/-- A message consisting of `n` letters `a`, for the length-boundary tests. -/
def aMessage (n : Nat) : String := String.mk (List.replicate n 'a')

theorem dropWhile_replicate_a (n : Nat) :
    List.dropWhile isPyWhitespace (List.replicate n 'a') = List.replicate n 'a' := by
  cases n <;> rfl

theorem pyStrip_aMessage (n : Nat) : pyStrip (aMessage n) = aMessage n := by
  show String.mk ((((List.replicate n 'a').dropWhile
      isPyWhitespace).reverse.dropWhile isPyWhitespace).reverse) = aMessage n
  rw [dropWhile_replicate_a, List.reverse_replicate, dropWhile_replicate_a,
    List.reverse_replicate]
  rfl

theorem aMessage_length (n : Nat) : (aMessage n).length = n := by
  show (List.replicate n 'a').length = n
  exact List.length_replicate n 'a'

theorem aMessage_ne_empty (n : Nat) (h : 0 < n) : aMessage n ≠ "" := by
  intro he
  have hl : (aMessage n).length = 0 := by rw [he]; rfl
  rw [aMessage_length] at hl
  omega

theorem validate_aMessage_ok (n : Nat) (h0 : 0 < n) (hle : ¬ 5000 < n) :
    validateMessage (aMessage n) = Except.ok (aMessage n) := by
  simp only [validateMessage, pyStrip_aMessage]
  rw [if_neg (aMessage_ne_empty n h0), if_neg (by rw [aMessage_length]; exact hle)]

theorem validate_aMessage_tooLong (n : Nat) (h0 : 0 < n) (hgt : 5000 < n) :
    validateMessage (aMessage n) = Except.error tooLongResponse := by
  simp only [validateMessage, pyStrip_aMessage]
  rw [if_neg (aMessage_ne_empty n h0), if_pos (by rw [aMessage_length]; exact hgt)]

theorem predictOptimized_tooLong :
    predictOptimized (fun _ => (0, 1)) (aMessage 5001) = tooLongResponse := by
  unfold predictOptimized predictOptimizedBody
  rw [validate_aMessage_tooLong 5001 (by norm_num) (by norm_num)]
  rfl

/-! ## Claims -/

/-- Claim C1 (code bug): the spec promises that a valid request (non-empty
stripped message of at most 5000 characters) gets a success response with
`error = false` and a status in {spam, legitimate}.  In `src/src/app.py` — the
version served through `wsgi.py` — the handler's logging statement at line 153
interpolates `confidence_score`, a name assigned nowhere in that file, so every
valid request raises `NameError`, falls into the `except` branch, and returns
the generic 500 error response.  This theorem evaluates the embedded handler at
the failing input "Hello": validation passes, the name lookup fails, and the
caller receives the error response. -/
theorem c1_valid_message_hits_name_error :
    predictOptimized (fun _ => (1/10, 9/10)) "Hello"
      = (⟨true, "error",
          "An unexpected server error occurred. The issue has been logged.",
          none, none, none⟩, 500)
    ∧ validateMessage "Hello" = Except.ok "Hello"
    ∧ resolveName optimizedBoundNames "confidence_score"
      = Except.error "NameError: name confidence_score is not defined" :=
  ⟨rfl, rfl, rfl⟩

/-- Claim C2 (counterexample): the `except` branch of `src/app.py:161-168`
builds its message as `f'An unexpected error occurred: {str(e)}'`, so the
response text includes the internal exception's details and differs for
different exceptions — it is not a generic message independent of the
failure. -/
theorem c2_counterexample :
    (exceptHandlerRoot "division by zero").1.message
      = "An unexpected error occurred: division by zero"
    ∧ exceptHandlerRoot "division by zero" ≠ exceptHandlerRoot "bad pickle" := by
  exact ⟨rfl, by decide⟩

/-- Claim C2 (amended): any exception raised during inference is caught at the
request boundary and converted into a 500 response, so every request yields a
response and the serving process does not crash.  In `src/src/app.py` the
message is a fixed generic string, independent of the exception's details; in
`src/app.py` the message embeds `str(e)`, leaking the details to the caller. -/
theorem c2_amended (e e2 : String) :
    catchBoundary (Except.error e) exceptHandlerOptimized = exceptHandlerOptimized e
    ∧ exceptHandlerOptimized e = exceptHandlerOptimized e2
    ∧ (exceptHandlerOptimized e).1.message
      = "An unexpected server error occurred. The issue has been logged."
    ∧ (exceptHandlerOptimized e).2 = 500
    ∧ (exceptHandlerRoot e).1.message = "An unexpected error occurred: " ++ e :=
  ⟨rfl, rfl, rfl, rfl, rfl⟩

/-- Claim C3 (counterexample): a row whose label is neither "ham" nor "spam"
loads without any error — `Series.map` silently yields a missing (NaN) label —
so loading does not fail with `MalformedRow`. -/
theorem c3_counterexample :
    loadDataset [⟨"unknown", "hello"⟩]
      = Except.ok [{ target := none, message := "hello" }] := rfl

/-- Claim C3 (amended): the loader never fails on label values; a label outside
the two-symbol set {"ham", "spam"} is silently mapped to a missing (NaN) label
in the produced record, while "ham" and "spam" map to 0 and 1. -/
theorem c3_amended (rows : List RawRow) (l : String)
    (h1 : l ≠ "ham") (h2 : l ≠ "spam") :
    loadDataset rows
      = Except.ok (rows.map (fun r => { target := labelMap r.v1, message := r.v2 }))
    ∧ labelMap l = none
    ∧ labelMap "ham" = some 0 ∧ labelMap "spam" = some 1 := by
  refine ⟨rfl, ?_, rfl, rfl⟩
  unfold labelMap
  rw [if_neg h1, if_neg h2]

theorem c3_amended_witness :
    loadDataset [⟨"junk", "x"⟩]
      = Except.ok [{ target := labelMap "junk", message := "x" }]
    ∧ labelMap "junk" = none
    ∧ labelMap "ham" = some 0 ∧ labelMap "spam" = some 1 := by
  have h := c3_amended [⟨"junk", "x"⟩] "junk" (by decide) (by decide)
  exact ⟨h.1, h.2.1, h.2.2.1, h.2.2.2⟩

/-- Claim C5: at the `/predict` endpoint an empty message yields the structured
400 validation error; a message of exactly 5000 characters passes input
validation and is handed to the prediction code; a message of 5001 characters
is rejected with the 400 validation error. -/
theorem c5_validation_boundaries :
    validateMessage "" = Except.error emptyMessageResponse
    ∧ validateMessage (aMessage 5000) = Except.ok (aMessage 5000)
    ∧ validateMessage (aMessage 5001) = Except.error tooLongResponse
    ∧ predictOptimized (fun _ => (0, 1)) "" = emptyMessageResponse
    ∧ predictOptimized (fun _ => (0, 1)) (aMessage 5001) = tooLongResponse
    ∧ emptyMessageResponse.1.error = true ∧ emptyMessageResponse.2 = 400
    ∧ tooLongResponse.1.error = true ∧ tooLongResponse.2 = 400 :=
  ⟨rfl, validate_aMessage_ok 5000 (by norm_num) (by norm_num),
   validate_aMessage_tooLong 5001 (by norm_num) (by norm_num),
   rfl, predictOptimized_tooLong, rfl, rfl, rfl, rfl⟩

/-- Claim C4 (counterexample): the artifact writer opens the target path
directly (`with open(model_path, 'wb')`) and streams the pickle into it; with
a previous artifact `[9, 9]` and new artifact bytes `[1, 2]`, the path
observably holds `some [1]` during the write — a partially-written artifact
that is neither the old nor the new content — so the write is not atomic. -/
theorem c4_counterexample :
    ¬ ∀ s ∈ directWriteStates (some [9, 9]) [1, 2],
        s = some [9, 9] ∨ s = some [1, 2] := by
  decide

/-- Claim C4 (amended): the writer goes through no temporary location; after
the truncating open and `i` streamed chunks the artifact path observably holds
exactly the partial prefix `data.take i` of the new artifact, and a write
failing at that point leaves this partial state in place — the previously
persisted artifact is already gone. -/
theorem c4_amended (old : Option (List Nat)) (data : List Nat) (i : Nat)
    (h : i ≤ data.length) :
    (directWriteStates old data).get? (i + 1) = some (some (data.take i)) := by
  unfold directWriteStates
  rw [List.get?_cons_succ, List.get?_map, List.get?_range (by omega)]
  rfl

theorem c4_amended_witness :
    (directWriteStates (some [9, 9]) [1, 2]).get? 2 = some (some [1]) :=
  c4_amended (some [9, 9]) [1, 2] 1 (by norm_num)

/-- Claim C6: the rate limiter of `src/src/app.py` prunes the client's
timestamps lazily on every request, rejects a request with the distinct 429
response exactly when at least `RATE_LIMIT_REQUESTS = 15` timestamps remain in
the 60-second window, admits it otherwise by recording the current time, keeps
at most 15 stored timestamps per client, and stores only timestamps inside the
window (or the current time). -/
theorem c6_rate_limit (now : ℚ) (ts : List ℚ)
    (hinv : ts.length ≤ RATE_LIMIT_REQUESTS) :
    (RATE_LIMIT_REQUESTS ≤ (pruneTimestamps now ts).length →
      rateLimitStep now ts
        = (RateLimitOutcome.rejected rateLimitedResponse, pruneTimestamps now ts))
    ∧ ((pruneTimestamps now ts).length < RATE_LIMIT_REQUESTS →
      rateLimitStep now ts
        = (RateLimitOutcome.admitted, pruneTimestamps now ts ++ [now]))
    ∧ (rateLimitStep now ts).2.length ≤ RATE_LIMIT_REQUESTS
    ∧ (∀ t ∈ (rateLimitStep now ts).2, now - t < RATE_LIMIT_PERIOD ∨ t = now)
    ∧ rateLimitedResponse.2 = 429 ∧ rateLimitedResponse.2 ≠ 400 := by
  refine ⟨?_, ?_, ?_, ?_, rfl, by decide⟩
  · intro h
    unfold rateLimitStep
    rw [if_pos h]
  · intro h
    unfold rateLimitStep
    rw [if_neg (by omega)]
  · unfold rateLimitStep
    by_cases h : RATE_LIMIT_REQUESTS ≤ (pruneTimestamps now ts).length
    · rw [if_pos h]
      calc (pruneTimestamps now ts).length
          ≤ ts.length := List.length_filter_le _ _
        _ ≤ RATE_LIMIT_REQUESTS := hinv
    · rw [if_neg h]
      simp only [List.length_append, List.length_cons, List.length_nil]
      omega
  · intro t ht
    unfold rateLimitStep at ht
    by_cases h : RATE_LIMIT_REQUESTS ≤ (pruneTimestamps now ts).length
    · rw [if_pos h] at ht
      left
      have hf := List.mem_filter.mp ht
      exact of_decide_eq_true hf.2
    · rw [if_neg h] at ht
      rcases List.mem_append.mp ht with h1 | h2
      · left
        have hf := List.mem_filter.mp h1
        exact of_decide_eq_true hf.2
      · right
        exact List.mem_singleton.mp h2

theorem c6_rate_limit_witness :
    rateLimitStep 100 (List.replicate 15 (50 : ℚ))
      = (RateLimitOutcome.rejected rateLimitedResponse,
         pruneTimestamps 100 (List.replicate 15 (50 : ℚ)))
    ∧ rateLimitStep 100 ([] : List ℚ)
      = (RateLimitOutcome.admitted, pruneTimestamps 100 [] ++ [100])
    ∧ (rateLimitStep 100 (List.replicate 15 (50 : ℚ))).2.length
        ≤ RATE_LIMIT_REQUESTS := by
  have hp : pruneTimestamps 100 (List.replicate 15 (50 : ℚ))
      = List.replicate 15 (50 : ℚ) := by
    unfold pruneTimestamps
    rw [List.filter_eq_self]
    intro a ha
    have ha2 : a = 50 := List.eq_of_mem_replicate ha
    subst ha2
    norm_num [RATE_LIMIT_PERIOD]
  have h1 := c6_rate_limit 100 (List.replicate 15 (50 : ℚ))
    (by simp [RATE_LIMIT_REQUESTS])
  have h2 := c6_rate_limit 100 [] (by simp)
  refine ⟨h1.1 ?_, h2.2.1 ?_, h1.2.2.1⟩
  · rw [hp]
    simp [RATE_LIMIT_REQUESTS]
  · show (pruneTimestamps 100 []).length < RATE_LIMIT_REQUESTS
    show ([] : List ℚ).length < RATE_LIMIT_REQUESTS
    norm_num [RATE_LIMIT_REQUESTS]

/-- Claim C7: the split is deterministic — `train_test_split` is called with
the fixed `random_state=42`, so the seed consulted is 42 regardless of the
ambient global random-generator state, and two runs (any two ambient states)
produce the identical (Train, Test) partition for the same data and
fraction. -/
theorem c7_split_deterministic (ambient1 ambient2 : Nat) (frac : ℚ)
    (data : List LabelledRow) :
    trainTestSplit ambient1 (some 42) frac data
      = trainTestSplit ambient2 (some 42) frac data := rfl

/-- Sanity check that the embedding is not degenerate: without a fixed
`random_state` the split genuinely depends on the ambient generator state (the
seeded shuffle orders differently under different seeds). -/
theorem seededShuffle_seed_dependent :
    seededShuffle 0 ["a", "b"] ≠ seededShuffle 1 ["a", "b"] := by
  decide

/-- `roundHalfEven` is monotone: rounding half-to-even never swaps the order
of two rationals. -/
theorem roundHalfEven_mono : Monotone roundHalfEven := by
  intro q r hqr
  unfold roundHalfEven
  have hm : ⌊q + 1/2⌋ ≤ ⌊r + 1/2⌋ := Int.floor_mono (by linarith)
  by_cases hr : r + 1/2 = (⌊r + 1/2⌋ : ℚ) ∧ ¬ Even ⌊r + 1/2⌋
  · rw [if_pos hr]
    by_cases hq : q + 1/2 = (⌊q + 1/2⌋ : ℚ) ∧ ¬ Even ⌊q + 1/2⌋
    · rw [if_pos hq]; omega
    · rw [if_neg hq]
      rcases eq_or_lt_of_le hqr with heq | hlt
      · subst heq; exact absurd hr hq
      · have hlt2 : q + 1/2 < (⌊r + 1/2⌋ : ℚ) := by rw [← hr.1]; linarith
        have hfl : ⌊q + 1/2⌋ < ⌊r + 1/2⌋ := Int.floor_lt.mpr hlt2
        omega
  · rw [if_neg hr]
    by_cases hq : q + 1/2 = (⌊q + 1/2⌋ : ℚ) ∧ ¬ Even ⌊q + 1/2⌋
    · rw [if_pos hq]; omega
    · rw [if_neg hq]; exact hm

/-- Python `round(·, 1)` is monotone. -/
theorem pyRound1_mono : Monotone pyRound1 := by
  intro a b hab
  unfold pyRound1
  have h1 : roundHalfEven (10 * a) ≤ roundHalfEven (10 * b) :=
    roundHalfEven_mono (by linarith)
  have h2 : ((roundHalfEven (10 * a) : ℚ)) ≤ (roundHalfEven (10 * b) : ℚ) := by
    exact_mod_cast h1
  linarith

/-- Claim C8 (counterexample): the derived rates of
`src/notebooks/train_optimized.py:104-107` (precision, recall, F1,
false-positive rate) and the false-positive-rate print of
`src/notebooks/model_evaluation.py:92` are unguarded divisions: on the all-zero
confusion matrix they produce no numeric result (0/0 — `ZeroDivisionError` for
Python ints, NaN for NumPy scalars), not the sentinel value 0. -/
theorem c8_counterexample :
    precisionV2 0 0 = none ∧ recallV2 0 0 = none ∧ f1V2 0 0 0 = none
    ∧ fpRateV2 0 0 = none ∧ fpRateEval 0 0 = none
    ∧ precisionV2 0 0 ≠ some 0 :=
  ⟨rfl, rfl, rfl, rfl, rfl, by simp [precisionV2]⟩

/-- Claim C8 (amended): the zero-denominator sentinel policy holds exactly for
the two guarded rates of `src/notebooks/model_evaluation.py:86-87` —
specificity and sensitivity yield the sentinel 0 when their denominators are
zero — while the false-positive-rate print there and all four derived rates of
`src/notebooks/train_optimized.py` are unguarded divisions that yield no
sentinel on a zero denominator. -/
theorem c8_amended (tn fp fneg tp : Nat)
    (h1 : tn + fp = 0) (h2 : tp + fneg = 0) :
    specificity tn fp = 0 ∧ sensitivity tp fneg = 0
    ∧ precisionV2 tp fp = none ∧ recallV2 tp fneg = none
    ∧ f1V2 tp fp fneg = none ∧ fpRateV2 fp tn = none
    ∧ fpRateEval fp tn = none := by
  have htn : tn = 0 := by omega
  have hfp : fp = 0 := by omega
  have htp : tp = 0 := by omega
  have hfn : fneg = 0 := by omega
  subst htn; subst hfp; subst htp; subst hfn
  exact ⟨rfl, rfl, rfl, rfl, rfl, rfl, rfl⟩

theorem c8_amended_witness :
    specificity 0 0 = 0 ∧ sensitivity 0 0 = 0
    ∧ precisionV2 0 0 = none ∧ recallV2 0 0 = none
    ∧ f1V2 0 0 0 = none ∧ fpRateV2 0 0 = none
    ∧ fpRateEval 0 0 = none :=
  c8_amended 0 0 0 0 rfl rfl

/-- A concrete scored test set for the threshold sweep: one actual spam message
scored 0.4 and one legitimate message scored 0.8. -/
def sweepExample : Scored := [(2/5, 1), (4/5, 0)]

/-- Claim C9 (counterexample): precision is not monotone along the sweep.  On
`sweepExample`, between the sweep thresholds 0.3 and 0.5 the precision computed
by the code (with `zero_division=0`) strictly decreases from 1/2 to 0, so the
claimed `precision(t2) ≥ precision(t1)` fails. -/
theorem c9_counterexample :
    (3/10 : ℚ) ∈ thresholdsToTest ∧ (5/10 : ℚ) ∈ thresholdsToTest
    ∧ (3/10 : ℚ) < 5/10
    ∧ precisionAt sweepExample (5/10) < precisionAt sweepExample (3/10) := by
  have e1 : precisionAt sweepExample (3/10) = 1/2 := by
    norm_num [precisionAt, tpAt, predPosAt, sweepExample,
      List.countP_cons, List.countP_nil]
  have e2 : precisionAt sweepExample (5/10) = 0 := by
    norm_num [precisionAt, tpAt, predPosAt, sweepExample,
      List.countP_cons, List.countP_nil]
  refine ⟨by norm_num [thresholdsToTest], by norm_num [thresholdsToTest],
    by norm_num, ?_⟩
  rw [e1, e2]
  norm_num

/-- Claim C9 (amended): along the threshold sweep, recall is non-increasing —
for any scored test set and thresholds `t1 ≤ t2`, the recall computed at `t2`
is at most the recall at `t1`; the precision half of the claim does not hold
(see the counterexample), precision may strictly decrease as the threshold
grows. -/
theorem c9_amended (d : Scored) (t1 t2 : ℚ) (h : t1 ≤ t2) :
    recallAt d t2 ≤ recallAt d t1 := by
  unfold recallAt
  by_cases hp : posCount d = 0
  · rw [if_pos hp, if_pos hp]
  · rw [if_neg hp, if_neg hp]
    have htp : tpAt d t2 ≤ tpAt d t1 := by
      unfold tpAt
      apply List.countP_mono_left
      intro x _ hpx
      simp only [Bool.and_eq_true, decide_eq_true_eq] at hpx ⊢
      exact ⟨le_trans h hpx.1, hpx.2⟩
    have hpos : (0 : ℚ) < posCount d := by
      exact_mod_cast Nat.pos_of_ne_zero hp
    exact (div_le_div_right hpos).mpr (Nat.cast_le.mpr htp)

theorem c9_amended_witness :
    recallAt sweepExample (5/10) ≤ recallAt sweepExample (3/10) :=
  c9_amended sweepExample (3/10) (5/10) (by norm_num)

/-- Claim C10: in the success response construction of `src/src/app.py`, the
`confidence` field is the maximum of the `ham_confidence` and
`spam_confidence` fields, the pre-rounding maximum is at least 50 whenever the
two class probabilities sum to 1 (the library contract for `predict_proba`),
the status is "spam" exactly when the spam probability strictly exceeds the
ham probability, and a message with exactly tied probabilities is reported
"legitimate". -/
theorem c10_confidence_fields (p0 p1 : ℚ) (hsum : p0 + p1 = 1) :
    (successResponse p0 p1).confidence
      = some (max (pyRound1 (p0 * 100)) (pyRound1 (p1 * 100)))
    ∧ (successResponse p0 p1).ham_confidence = some (pyRound1 (p0 * 100))
    ∧ (successResponse p0 p1).spam_confidence = some (pyRound1 (p1 * 100))
    ∧ 50 ≤ max (p0 * 100) (p1 * 100)
    ∧ ((successResponse p0 p1).status = "spam" ↔ p0 < p1)
    ∧ (p0 = p1 → (successResponse p0 p1).status = "legitimate") := by
  have hstatus : (successResponse p0 p1).status
      = if p0 < p1 then "spam" else "legitimate" := by
    by_cases hlt : p0 < p1
    · simp [successResponse, hlt]
    · simp [successResponse, hlt]
  refine ⟨?_, rfl, rfl, ?_, ?_, ?_⟩
  · show some (pyRound1 (max (p0 * 100) (p1 * 100))) = _
    rw [pyRound1_mono.map_max]
  · rcases le_total p0 p1 with hle | hle
    · calc (50 : ℚ) ≤ p1 * 100 := by linarith
        _ ≤ max (p0 * 100) (p1 * 100) := le_max_right _ _
    · calc (50 : ℚ) ≤ p0 * 100 := by linarith
        _ ≤ max (p0 * 100) (p1 * 100) := le_max_left _ _
  · rw [hstatus]
    by_cases hlt : p0 < p1
    · rw [if_pos hlt]
      exact ⟨fun _ => hlt, fun _ => rfl⟩
    · rw [if_neg hlt]
      exact ⟨fun hs => absurd hs (by decide), fun hl => absurd hl hlt⟩
  · intro he
    rw [hstatus, if_neg (by rw [he]; exact lt_irrefl p1)]

theorem c10_confidence_fields_witness :
    (successResponse (1/2) (1/2)).confidence
      = some (max (pyRound1 ((1:ℚ)/2 * 100)) (pyRound1 ((1:ℚ)/2 * 100)))
    ∧ (successResponse (1/2) (1/2)).ham_confidence
      = some (pyRound1 ((1:ℚ)/2 * 100))
    ∧ (successResponse (1/2) (1/2)).spam_confidence
      = some (pyRound1 ((1:ℚ)/2 * 100))
    ∧ 50 ≤ max ((1:ℚ)/2 * 100) ((1:ℚ)/2 * 100)
    ∧ ((successResponse (1/2) (1/2)).status = "spam" ↔ (1:ℚ)/2 < 1/2)
    ∧ ((1:ℚ)/2 = 1/2 → (successResponse (1/2) (1/2)).status = "legitimate") :=
  c10_confidence_fields (1/2) (1/2) (by norm_num)
